import Mathlib

/-!
Verification of the quota-exporter service (`main.go`): a shallow embedding
of the quota fetcher, the Prometheus-style collector, the stats page
handler and the auth-token middleware, together with theorems about the
spec-level claims.

Modelling conventions:
* Wall-clock instants are Unix seconds (`Int`); `time.Truncate (24h)` on a
  UTC instant is flooring to a multiple of 86400 (Lean's `/` on `Int` is
  Euclidean division, which floors for a positive divisor, matching Go's
  truncation towards the zero time, itself a midnight).
* `float64` quota values are modelled as exact rationals (`ℚ`): every Go
  operation involved — conversion of an `int64`, multiplication and
  division by the power of two 1048576 — is exact in binary floating
  point for the values at hand.  The one operation that can leave the
  finite range, `(used / total) * 100`, is modelled by the small IEEE-like
  carrier `FVal` with infinities and NaN (no signed zero).
* A Go panic (out-of-range index) is modelled by the `panicked` outcome;
  an error return by `error`; a normal return by `ok`.
* The upstream `CustomerUsageReports.Get(date).Do()` call is a parameter:
  a function from the formatted date string to `Except FetchErr UsageReports`.
-/

namespace GoogleAdminQuota

/-- An entry of a usage report's parameter list (`admin.UsageReportParameters`):
the name and the integer value are the only fields the program reads. -/
structure UsageParameter where
  name : String
  intValue : Int
deriving DecidableEq

/-- One usage report: the program only reads its `Parameters` list. -/
structure UsageReport where
  parameters : List UsageParameter
deriving DecidableEq

/-- The response of `CustomerUsageReports.Get(date).Do()`: a list of usage
reports (possibly empty). -/
structure UsageReports where
  usageReports : List UsageReport
deriving DecidableEq

/-- Opaque upstream transport/API errors, indexed so that distinct failures
can be told apart in statements about "the last error". -/
inductive FetchErr where
  | api : Nat → FetchErr
deriving DecidableEq

/-- Outcome of running a Go function that can panic, return an error, or
return normally. -/
inductive GoResult (ε α : Type) where
  | panicked : GoResult ε α
  | error : ε → GoResult ε α
  | ok : α → GoResult ε α
deriving DecidableEq

/-- IEEE-754-like value carrier for the one computation that can produce a
non-finite `float64`, `(used / total) * 100`.  Finite values are exact
rationals; there is no signed zero. -/
inductive FVal where
  | fin : ℚ → FVal
  | inf : FVal
  | negInf : FVal
  | nan : FVal
deriving DecidableEq

/-- `float64` division on `FVal`: division by zero yields NaN (0/0) or a
signed infinity, as in Go. -/
def FVal.div : FVal → FVal → FVal
  | .nan, _ => .nan
  | _, .nan => .nan
  | .inf, .inf => .nan
  | .inf, .negInf => .nan
  | .negInf, .inf => .nan
  | .negInf, .negInf => .nan
  | .inf, .fin b => if 0 ≤ b then .inf else .negInf
  | .negInf, .fin b => if 0 ≤ b then .negInf else .inf
  | .fin _, .inf => .fin 0
  | .fin _, .negInf => .fin 0
  | .fin a, .fin b =>
      if b = 0 then (if a = 0 then .nan else if 0 < a then .inf else .negInf)
      else .fin (a / b)

/-- `float64` multiplication on `FVal`: NaN is absorbing, infinity times
zero is NaN, otherwise signs multiply. -/
def FVal.mul : FVal → FVal → FVal
  | .nan, _ => .nan
  | _, .nan => .nan
  | .inf, .inf => .inf
  | .inf, .negInf => .negInf
  | .negInf, .inf => .negInf
  | .negInf, .negInf => .inf
  | .inf, .fin b => if b = 0 then .nan else if 0 < b then .inf else .negInf
  | .fin a, .inf => if a = 0 then .nan else if 0 < a then .inf else .negInf
  | .negInf, .fin b => if b = 0 then .nan else if 0 < b then .negInf else .inf
  | .fin a, .negInf => if a = 0 then .nan else if 0 < a then .negInf else .inf
  | .fin a, .fin b => .fin (a * b)

/-! ## Dates

`t.Format("2006-01-02")` is modelled by converting the epoch day number to
a proleptic-Gregorian civil date (the standard era-based algorithm) and
zero-padding the three components. -/

/-- Civil date (year, month, day) from a day count relative to 1970-01-01. -/
def civilFromDays (z0 : Int) : Int × Int × Int :=
  let z := z0 + 719468
  let era := z / 146097
  let doe := z - era * 146097
  let yoe := (doe - doe / 1460 + doe / 36524 - doe / 146096) / 365
  let doy := doe - (365 * yoe + yoe / 4 - yoe / 100)
  let mp := (5 * doy + 2) / 153
  let d := doy - (153 * mp + 2) / 5 + 1
  let m := if mp < 10 then mp + 3 else mp - 9
  (yoe + era * 400 + (if m ≤ 2 then 1 else 0), m, d)

/-- Render a digit 0–9 as a character. -/
def digitChar (n : Nat) : Char := Char.ofNat (48 + n % 10)

/-- Two-digit zero-padded decimal rendering. -/
def pad2 (n : Nat) : String := String.mk [digitChar (n / 10), digitChar n]

/-- Four-digit zero-padded decimal rendering. -/
def pad4 (n : Nat) : String :=
  String.mk [digitChar (n / 1000), digitChar (n / 100), digitChar (n / 10), digitChar n]

/-- Model of `t.Format("2006-01-02")` for an instant `t` in Unix seconds:
the ISO `YYYY-MM-DD` form of the UTC calendar date containing `t`. -/
def formatDate (t : Int) : String :=
  let c := civilFromDays (t / 86400)
  pad4 c.1.toNat ++ "-" ++ pad2 c.2.1.toNat ++ "-" ++ pad2 c.2.2.toNat

/-- Model of `.UTC().Truncate(24 * time.Hour)`: floor the instant to its
UTC day boundary (midnight). -/
def truncDay (t : Int) : Int := t / 86400 * 86400

/-- The `i`-th candidate date instant probed by the fetch loop (`i = 0` is
"yesterday"): `time.Now().AddDate(0, 0, -(i+1)).UTC().Truncate(24h)`. -/
def candidateDate (now : Int) (i : Nat) : Int :=
  truncDay (now - ((i : Int) + 1) * 86400)

/-- The five candidate date instants probed by `fetchQuotaStats`'s loop
`for i := -1; i > -6; i--`. -/
def candidateDates (now : Int) : List Int :=
  (List.range 5).map (candidateDate now)

/-! ## The fetch -/

/-- The probing loop of `fetchQuotaStats` (main.go lines 99–106): try each
candidate instant in order, calling the upstream client once with the
formatted date; stop at the first success.  Returns the list of date
strings actually sent upstream, the value of the loop variable `t` after
the loop, and the final `(resp, err)` pair.  The `tLast`/`eLast` arguments
carry Go's zero-initialised `t` and `err`; the base case is reached only
when every candidate failed (or the candidate list is empty, which
`fetchQuotaStats` never produces). -/
def tryDates (client : String → Except FetchErr UsageReports) :
    Int → FetchErr → List Int → List String × Int × Except FetchErr UsageReports
  | tLast, eLast, [] => ([], tLast, Except.error eLast)
  | _, _, d :: rest =>
      match client (formatDate d) with
      | Except.ok resp => ([formatDate d], d, Except.ok resp)
      | Except.error e =>
          let out := tryDates client d e rest
          (formatDate d :: out.1, out.2.1, out.2.2)

/-- The parameter-extraction loop of `fetchQuotaStats` (main.go lines
111–121): fold over the parameter list, the last occurrence of each
recognised name winning, starting from Go's zero-valued
`totalQuota`/`usedQuota`. -/
def extractQuotas (ps : List UsageParameter) : ℚ × ℚ :=
  ps.foldl
    (fun acc p =>
      if p.name = "accounts:total_quota_in_mb" then ((p.intValue : ℚ), acc.2)
      else if p.name = "accounts:used_quota_in_mb" then (acc.1, (p.intValue : ℚ))
      else acc)
    (0, 0)

/-- The result of a successful fetch: the accepted (truncated) report
instant, the two quota values in MB, and the derived percentage. -/
structure QuotaSnapshot where
  t : Int
  totalQuota : ℚ
  usedQuota : ℚ
  percentageUsed : FVal
deriving DecidableEq

/-- The post-loop part of `fetchQuotaStats` (main.go lines 111–125):
index the first usage report — a panic when the list is empty — then
extract the two quota parameters and compute `(used / total) * 100`. -/
def extractResult (t : Int) (resp : UsageReports) : GoResult FetchErr QuotaSnapshot :=
  match resp.usageReports with
  | [] => .panicked
  | rep :: _ =>
      let q := extractQuotas rep.parameters
      .ok ⟨t, q.1, q.2,
        FVal.mul (FVal.div (FVal.fin q.2) (FVal.fin q.1)) (FVal.fin 100)⟩

/-- `fetchQuotaStats` (main.go lines 92–126): probe up to five candidate
dates, then extract the quota values from the accepted response.  The
first component is the list of date strings sent upstream (one per call);
the second is the outcome.  On failure of all five probes the last error
is returned (and Go's zero time is dropped, as in the source). -/
def fetchQuotaStats (client : String → Except FetchErr UsageReports) (now : Int) :
    List String × GoResult FetchErr QuotaSnapshot :=
  let out := tryDates client 0 (FetchErr.api 0) (candidateDates now)
  match out.2.2 with
  | Except.error e => (out.1, .error e)
  | Except.ok resp => (out.1, extractResult out.2.1 resp)

/-! ## The Prometheus-style collector -/

/-- A metric descriptor: the name and help text passed to
`prometheus.NewDesc` (no variable or constant labels are used). -/
structure MetricDesc where
  metricName : String
  helpText : String
deriving DecidableEq

/-- `google_workspace_quota_timestamp` (main.go lines 50–53). -/
def timestampDesc : MetricDesc :=
  ⟨"google_workspace_quota_timestamp", "Timestamp of the quota stats"⟩

/-- `google_workspace_quota_bytes_total` (main.go lines 54–57). -/
def totalDesc : MetricDesc :=
  ⟨"google_workspace_quota_bytes_total", "Total quota in bytes"⟩

/-- `google_workspace_quota_bytes_used` (main.go lines 58–61). -/
def usedDesc : MetricDesc :=
  ⟨"google_workspace_quota_bytes_used", "Used quota in bytes"⟩

/-- `QuotaCollector.Describe` (main.go lines 66–69): the descriptors sent
on the channel, in send order.  The source sends `c.total` and `c.used`
only. -/
def Describe : List MetricDesc := [totalDesc, usedDesc]

/-- One gauge sample emitted during a scrape: its descriptor and its
`float64` value (always finite here, hence a rational). -/
structure Sample where
  desc : MetricDesc
  value : ℚ
deriving DecidableEq

/-- `QuotaCollector.Collect` (main.go lines 71–90): fetch, and on error
log and return with no samples; on success emit the three gauge samples.
`none` models the scrape goroutine panicking (a panic inside
`fetchQuotaStats` propagates through `Collect`). -/
def Collect (client : String → Except FetchErr UsageReports) (now : Int) :
    Option (List Sample) :=
  match (fetchQuotaStats client now).2 with
  | .panicked => none
  | .error _ => some []
  | .ok r => some
      [⟨timestampDesc, (r.t : ℚ)⟩,
       ⟨totalDesc, r.totalQuota * 1048576⟩,
       ⟨usedDesc, r.usedQuota * 1048576⟩]

/-! ## Fixed-point formatting

`strconv.FormatFloat(x, 'f', 3, 64)` renders the value with exactly three
fractional digits, rounding to nearest with ties to even.  The model is
exact on rationals (the inputs here are exactly representable); a
negative zero's sign is not modelled. -/

/-- The floor of a rational, computed on its reduced fraction (`Int`
division is Euclidean, hence flooring for the positive denominator). -/
def ratFloor (q : ℚ) : Int := q.num / (q.den : Int)

/-- Round to the nearest integer, ties to even. -/
def roundTiesEven (q : ℚ) : Int :=
  let f := ratFloor q
  let r := q - (f : ℚ)
  if r < 1 / 2 then f
  else if 1 / 2 < r then f + 1
  else if f % 2 = 0 then f else f + 1

/-- Three-digit zero-padded decimal rendering (of a value `< 1000`). -/
def pad3 (n : Nat) : String :=
  String.mk [digitChar (n / 100), digitChar (n / 10), digitChar n]

/-- Model of `strconv.FormatFloat(q, 'f', 3, 64)`: sign, integer part,
point, and exactly three fractional digits. -/
def formatFixed3 (q : ℚ) : String :=
  let n := roundTiesEven (q * 1000)
  (if n < 0 then "-" else "") ++ toString (n.natAbs / 1000) ++ "." ++ pad3 (n.natAbs % 1000)

/-! ## The stats page handler -/

/-- The display record handed to the template (`QuotaStats` in the
source): date string, quota strings in TB, and the numeric percentage. -/
structure QuotaStats where
  date : String
  totalQuota : String
  usedQuota : String
  percentageUsed : FVal
deriving DecidableEq

/-- Outcome of one request to the stats page handler. -/
inductive PageOutcome where
  | panicked : PageOutcome
  | serverError : String → PageOutcome
  | rendered : QuotaStats → PageOutcome
deriving DecidableEq

/-- `statsPageHanderFunc` (main.go lines 198–221): fetch; on error respond
with a generic 500 message; on success build the display record and hand
it to the template renderer (an external collaborator, modelled as
returning the record it would render). -/
def statsPageHanderFunc (client : String → Except FetchErr UsageReports) (now : Int) :
    PageOutcome :=
  match (fetchQuotaStats client now).2 with
  | .panicked => .panicked
  | .error _ => .serverError "Failed to fetch quota stats"
  | .ok r => .rendered
      ⟨formatDate r.t,
       formatFixed3 (r.totalQuota / 1048576),
       formatFixed3 (r.usedQuota / 1048576),
       r.percentageUsed⟩

/-! ## The auth-token middleware -/

/-- The part of an inbound request the middleware inspects: the `token`
query parameter (`none` when absent). -/
structure Request where
  token : Option String
deriving DecidableEq

/-- `r.URL.Query().Get("token")`: the empty string when the parameter is
absent. -/
def getTokenParam (r : Request) : String := r.token.getD ""

/-- Outcome of a request against a wrapped handler: either the 401
short-circuit, or the wrapped handler's response. -/
inductive GateOutcome (α : Type) where
  | unauthorized : GateOutcome α
  | handled : α → GateOutcome α
deriving DecidableEq

/-- `authTokenMiddleware` (main.go lines 241–252): when the configured
secret is non-empty and the `token` query parameter differs from it,
respond 401 without invoking the wrapped handler; otherwise delegate. -/
def authTokenMiddleware {α : Type} (authToken : String) (next : Request → α)
    (r : Request) : GateOutcome α :=
  if authToken ≠ "" ∧ getTokenParam r ≠ authToken then .unauthorized
  else .handled (next r)

/-! ## Concrete fixtures used by witnesses -/

/-- Decidable equality of upstream call outcomes, used to evaluate the
witness clients. -/
instance : DecidableEq (Except FetchErr UsageReports) := fun a b =>
  match a, b with
  | Except.ok x, Except.ok y =>
      if h : x = y then isTrue (by rw [h]) else isFalse (by intro hc; cases hc; exact h rfl)
  | Except.error x, Except.error y =>
      if h : x = y then isTrue (by rw [h]) else isFalse (by intro hc; cases hc; exact h rfl)
  | Except.ok _, Except.error _ => isFalse (by intro hc; cases hc)
  | Except.error _, Except.ok _ => isFalse (by intro hc; cases hc)

/-- A usage report carrying the two quota parameters (1 TiB total, half
used), as in the spec's worked example. -/
def exampleReport : UsageReports :=
  ⟨[⟨[⟨"accounts:total_quota_in_mb", 1048576⟩,
      ⟨"accounts:used_quota_in_mb", 524288⟩]⟩]⟩

/-- A client that fails on the first two candidate dates (relative to the
fixed instant 1700000000) and succeeds on the third. -/
def thirdDayClient : String → Except FetchErr UsageReports := fun s =>
  if s = formatDate (candidateDate 1700000000 2) then Except.ok exampleReport
  else Except.error (FetchErr.api 1)

/-- A client that always fails. -/
def failingClient : String → Except FetchErr UsageReports := fun _ =>
  Except.error (FetchErr.api 3)

/-- A client whose first probe succeeds but returns a response with an
empty usage-report list. -/
def emptyReportClient : String → Except FetchErr UsageReports := fun _ =>
  Except.ok ⟨[]⟩

/-- A client whose first probe succeeds with a report that carries neither
quota parameter. -/
def noParamClient : String → Except FetchErr UsageReports := fun _ =>
  Except.ok ⟨[⟨[⟨"accounts:num_users", 7⟩]⟩]⟩

/-! ## Helper lemmas about the probing loop -/

lemma candidateDates_eq (now : Int) :
    candidateDates now =
      [candidateDate now 0, candidateDate now 1, candidateDate now 2,
       candidateDate now 3, candidateDate now 4] := by
  simp [candidateDates, show List.range 5 = [0, 1, 2, 3, 4] from rfl]

lemma fetch_first_success (client : String → Except FetchErr UsageReports) (now : Int)
    (j : Nat) (errs : Nat → FetchErr) (resp : UsageReports) (hj : j < 5)
    (hfail : ∀ i, i < j → client (formatDate (candidateDate now i)) = Except.error (errs i))
    (hsucc : client (formatDate (candidateDate now j)) = Except.ok resp) :
    fetchQuotaStats client now =
      ((List.range (j + 1)).map (fun i => formatDate (candidateDate now i)),
        extractResult (candidateDate now j) resp) := by
  interval_cases j
  · simp [fetchQuotaStats, candidateDates_eq, tryDates, hsucc, List.range_succ]
  · simp [fetchQuotaStats, candidateDates_eq, tryDates, hfail 0 (by norm_num),
      hsucc, List.range_succ]
  · simp [fetchQuotaStats, candidateDates_eq, tryDates, hfail 0 (by norm_num),
      hfail 1 (by norm_num), hsucc, List.range_succ]
  · simp [fetchQuotaStats, candidateDates_eq, tryDates, hfail 0 (by norm_num),
      hfail 1 (by norm_num), hfail 2 (by norm_num), hsucc, List.range_succ]
  · simp [fetchQuotaStats, candidateDates_eq, tryDates, hfail 0 (by norm_num),
      hfail 1 (by norm_num), hfail 2 (by norm_num), hfail 3 (by norm_num),
      hsucc, List.range_succ]

lemma fetch_all_fail (client : String → Except FetchErr UsageReports) (now : Int)
    (errs : Nat → FetchErr)
    (hfail : ∀ i, i < 5 → client (formatDate (candidateDate now i)) = Except.error (errs i)) :
    fetchQuotaStats client now =
      ((List.range 5).map (fun i => formatDate (candidateDate now i)),
        GoResult.error (errs 4)) := by
  simp [fetchQuotaStats, candidateDates_eq, tryDates, hfail 0 (by norm_num),
    hfail 1 (by norm_num), hfail 2 (by norm_num), hfail 3 (by norm_num),
    hfail 4 (by norm_num), List.range_succ]

lemma fetch_ok_shape (client : String → Except FetchErr UsageReports) (now : Int)
    (r : QuotaSnapshot) (h : (fetchQuotaStats client now).2 = GoResult.ok r) :
    r.percentageUsed =
      FVal.mul (FVal.div (FVal.fin r.usedQuota) (FVal.fin r.totalQuota)) (FVal.fin 100) ∧
    statsPageHanderFunc client now = PageOutcome.rendered
      ⟨formatDate r.t, formatFixed3 (r.totalQuota / 1048576),
       formatFixed3 (r.usedQuota / 1048576), r.percentageUsed⟩ ∧
    Collect client now = some
      [⟨timestampDesc, (r.t : ℚ)⟩, ⟨totalDesc, r.totalQuota * 1048576⟩,
       ⟨usedDesc, r.usedQuota * 1048576⟩] := by
  refine ⟨?_, by simp [statsPageHanderFunc, h], by simp [Collect, h]⟩
  rcases htry : (tryDates client 0 (FetchErr.api 0) (candidateDates now)).2.2 with e | resp
  · simp [fetchQuotaStats, htry] at h
  · rcases hrep : resp.usageReports with _ | ⟨rep, rest⟩ <;>
      simp [fetchQuotaStats, htry, extractResult, hrep] at h
    rw [← h]

/-! ## Claim theorems -/

/-- C1: the fetch probes candidate dates from yesterday backwards, at most
5, one upstream call per candidate, stopping at the first success.  With
`j` the zero-based index of the first succeeding candidate (`j < 5`),
exactly `j + 1` calls are issued — to the formatted dates of candidates
`0..j` — and the `j`-th response's data is returned; with all five probes
failing (`j = 5`), exactly 5 calls are issued and the last error is
returned. -/
theorem fetch_probe_schedule (client : String → Except FetchErr UsageReports) (now : Int)
    (j : Nat) (errs : Nat → FetchErr) (resp : UsageReports) (hj : j ≤ 5)
    (hfail : ∀ i, i < j → client (formatDate (candidateDate now i)) = Except.error (errs i))
    (hsucc : j < 5 → client (formatDate (candidateDate now j)) = Except.ok resp) :
    (fetchQuotaStats client now).1 =
      (List.range (min (j + 1) 5)).map (fun i => formatDate (candidateDate now i)) ∧
    (fetchQuotaStats client now).1.length = min (j + 1) 5 ∧
    (fetchQuotaStats client now).2 =
      if j < 5 then extractResult (candidateDate now j) resp
      else GoResult.error (errs 4) := by
  by_cases h5 : j < 5
  · have heq := fetch_first_success client now j errs resp h5 hfail (hsucc h5)
    have hmin : min (j + 1) 5 = j + 1 := by omega
    rw [heq]
    simp [hmin, h5]
  · have hj5 : j = 5 := by omega
    subst hj5
    have heq := fetch_all_fail client now errs hfail
    rw [heq]
    simp

/-- Witness for C1 at the spec's worked example: only the third candidate
succeeds, so exactly three calls are issued (to yesterday, yesterday-1 and
yesterday-2) and the third response's data is returned. -/
theorem fetch_probe_schedule_witness :
    ((2 : Nat) ≤ 5 ∧
      (∀ i, i < 2 → thirdDayClient (formatDate (candidateDate 1700000000 i)) =
        Except.error (FetchErr.api 1)) ∧
      ((2 : Nat) < 5 → thirdDayClient (formatDate (candidateDate 1700000000 2)) =
        Except.ok exampleReport)) ∧
    ((fetchQuotaStats thirdDayClient 1700000000).1 =
      (List.range (min (2 + 1) 5)).map (fun i => formatDate (candidateDate 1700000000 i)) ∧
    (fetchQuotaStats thirdDayClient 1700000000).1.length = min (2 + 1) 5 ∧
    (fetchQuotaStats thirdDayClient 1700000000).2 =
      if (2 : Nat) < 5 then extractResult (candidateDate 1700000000 2) exampleReport
      else GoResult.error (FetchErr.api 1)) :=
  ⟨⟨by decide, by decide, by decide⟩,
    fetch_probe_schedule thirdDayClient 1700000000 2 (fun _ => FetchErr.api 1)
      exampleReport (by decide) (by decide) (by decide)⟩

/-- C7: on any fetch failure (an error outcome, as opposed to a panic),
`Collect` returns normally with zero samples for that scrape. -/
theorem collect_error_no_samples (client : String → Except FetchErr UsageReports)
    (now : Int) (e : FetchErr)
    (h : (fetchQuotaStats client now).2 = GoResult.error e) :
    Collect client now = some [] := by
  simp [Collect, h]

/-- Witness for C7: with every probe failing, the scrape completes with an
empty sample list. -/
theorem collect_error_no_samples_witness :
    (fetchQuotaStats failingClient 1700000000).2 = GoResult.error (FetchErr.api 3) ∧
    Collect failingClient 1700000000 = some [] :=
  ⟨by decide, collect_error_no_samples failingClient 1700000000 (FetchErr.api 3) (by decide)⟩

/-- C2 counterexample (a bug in the code): when the accepted response has
an empty usage-report list, the fetch panics (out-of-range index on
`resp.UsageReports[0]`) instead of returning a recoverable error, and the
panic propagates through both consumers. -/
theorem fetch_empty_report_panics :
    (fetchQuotaStats emptyReportClient 1700000000).2 = GoResult.panicked ∧
    (fetchQuotaStats emptyReportClient 1700000000).2 ≠
      GoResult.error (FetchErr.api 0) ∧
    Collect emptyReportClient 1700000000 = none ∧
    statsPageHanderFunc emptyReportClient 1700000000 = PageOutcome.panicked := by
  refine ⟨by decide, by decide, by decide, by decide⟩

/-- C3 counterexample (a bug in the code): `Describe` sends only the
total-bytes and used-bytes descriptors; the timestamp descriptor — which
`Collect` nevertheless emits a sample for — is missing, so the descriptor
set has two entries, not three. -/
theorem describe_omits_timestamp :
    Describe = [totalDesc, usedDesc] ∧
    timestampDesc ∉ Describe ∧
    Describe.length = 2 := by
  refine ⟨rfl, by decide, rfl⟩

/-- C4: with a non-empty configured secret, a request whose `token` query
parameter is absent or differs from the secret is answered 401 and the
wrapped handler is never invoked; with an empty secret every request
reaches the wrapped handler. -/
theorem auth_token_gate {α : Type} (s : String) (r : Request) (next : Request → α) :
    (s ≠ "" → (r.token = none ∨ ∃ v, r.token = some v ∧ v ≠ s) →
      authTokenMiddleware s next r = GateOutcome.unauthorized) ∧
    authTokenMiddleware "" next r = GateOutcome.handled (next r) := by
  constructor
  · intro hs hv
    have ht : getTokenParam r ≠ s := by
      rcases hv with h | ⟨v, hv', hvs⟩
      · simp only [getTokenParam, h, Option.getD_none]
        exact fun h' => hs h'.symm
      · simp only [getTokenParam, hv', Option.getD_some]
        exact hvs
    simp [authTokenMiddleware, hs, ht]
  · simp [authTokenMiddleware]

/-- Witness for C4: secret `"secret"`, a request carrying a wrong token is
rejected; with the empty secret the same request is handled. -/
theorem auth_token_gate_witness :
    ("secret" ≠ "" ∧ (some "wrong" = none ∨ ∃ v, some "wrong" = some v ∧ v ≠ "secret")) ∧
    authTokenMiddleware "secret" (fun _ => (7 : Nat)) ⟨some "wrong"⟩ =
      GateOutcome.unauthorized ∧
    authTokenMiddleware "" (fun _ => (7 : Nat)) ⟨some "wrong"⟩ =
      GateOutcome.handled 7 :=
  ⟨⟨by decide, Or.inr ⟨"wrong", rfl, by decide⟩⟩,
    (auth_token_gate "secret" ⟨some "wrong"⟩ (fun _ => (7 : Nat))).1 (by decide)
      (Or.inr ⟨"wrong", rfl, by decide⟩),
    (auth_token_gate "" ⟨some "wrong"⟩ (fun _ => (7 : Nat))).2⟩

/-! ## Extraction-loop lemmas -/

lemma extract_fold_fst (ps : List UsageParameter) (init : ℚ × ℚ)
    (h : ∀ p ∈ ps, p.name ≠ "accounts:total_quota_in_mb") :
    (ps.foldl (fun acc p =>
      if p.name = "accounts:total_quota_in_mb" then ((p.intValue : ℚ), acc.2)
      else if p.name = "accounts:used_quota_in_mb" then (acc.1, (p.intValue : ℚ))
      else acc) init).1 = init.1 := by
  induction ps generalizing init with
  | nil => rfl
  | cons p ps ih =>
      have hp := h p (List.mem_cons_self p ps)
      have hrest := fun q hq => h q (List.mem_cons_of_mem p hq)
      simp only [List.foldl_cons, if_neg hp]
      by_cases hu : p.name = "accounts:used_quota_in_mb"
      · rw [if_pos hu]; exact ih _ hrest
      · rw [if_neg hu]; exact ih _ hrest

lemma extract_fold_snd (ps : List UsageParameter) (init : ℚ × ℚ)
    (h : ∀ p ∈ ps, p.name ≠ "accounts:used_quota_in_mb") :
    (ps.foldl (fun acc p =>
      if p.name = "accounts:total_quota_in_mb" then ((p.intValue : ℚ), acc.2)
      else if p.name = "accounts:used_quota_in_mb" then (acc.1, (p.intValue : ℚ))
      else acc) init).2 = init.2 := by
  induction ps generalizing init with
  | nil => rfl
  | cons p ps ih =>
      have hp := h p (List.mem_cons_self p ps)
      have hrest := fun q hq => h q (List.mem_cons_of_mem p hq)
      simp only [List.foldl_cons]
      by_cases ht : p.name = "accounts:total_quota_in_mb"
      · rw [if_pos ht]; exact ih _ hrest
      · rw [if_neg ht, if_neg hp]; exact ih _ hrest

lemma extractQuotas_fst_zero (ps : List UsageParameter)
    (h : ∀ p ∈ ps, p.name ≠ "accounts:total_quota_in_mb") :
    (extractQuotas ps).1 = 0 :=
  extract_fold_fst ps (0, 0) h

lemma extractQuotas_snd_zero (ps : List UsageParameter)
    (h : ∀ p ∈ ps, p.name ≠ "accounts:used_quota_in_mb") :
    (extractQuotas ps).2 = 0 :=
  extract_fold_snd ps (0, 0) h

lemma fetch_first_success_ok (client : String → Except FetchErr UsageReports) (now : Int)
    (j : Nat) (errs : Nat → FetchErr) (resp : UsageReports)
    (rep : UsageReport) (rest : List UsageReport) (hj : j < 5)
    (hfail : ∀ i, i < j → client (formatDate (candidateDate now i)) = Except.error (errs i))
    (hsucc : client (formatDate (candidateDate now j)) = Except.ok resp)
    (hrep : resp.usageReports = rep :: rest) :
    (fetchQuotaStats client now).2 = GoResult.ok
      ⟨candidateDate now j, (extractQuotas rep.parameters).1,
       (extractQuotas rep.parameters).2,
       FVal.mul (FVal.div (FVal.fin (extractQuotas rep.parameters).2)
         (FVal.fin (extractQuotas rep.parameters).1)) (FVal.fin 100)⟩ := by
  have heq := fetch_first_success client now j errs resp hj hfail hsucc
  rw [heq]
  simp [extractResult, hrep]

/-- C9: the instant returned by a successful fetch — emitted as the
timestamp gauge and rendered as the stats-page date — is the accepted
candidate's day-truncated date (midnight UTC of `now` minus `j + 1` days
when candidate `j` is the first success), a multiple of 86400 strictly
before `now`, not the fetch's wall-clock instant. -/
theorem fetch_timestamp_probed_day (client : String → Except FetchErr UsageReports)
    (now : Int) (j : Nat) (errs : Nat → FetchErr) (resp : UsageReports)
    (rep : UsageReport) (rest : List UsageReport) (hj : j < 5)
    (hfail : ∀ i, i < j → client (formatDate (candidateDate now i)) = Except.error (errs i))
    (hsucc : client (formatDate (candidateDate now j)) = Except.ok resp)
    (hrep : resp.usageReports = rep :: rest) :
    ∃ r, (fetchQuotaStats client now).2 = GoResult.ok r ∧
      r.t = truncDay (now - ((j : Int) + 1) * 86400) ∧
      r.t % 86400 = 0 ∧
      r.t < now ∧
      (∃ more, Collect client now = some (⟨timestampDesc, (r.t : ℚ)⟩ :: more)) ∧
      (∃ st, statsPageHanderFunc client now = PageOutcome.rendered st ∧
        st.date = formatDate r.t) := by
  have h2 := fetch_first_success_ok client now j errs resp rep rest hj hfail hsucc hrep
  obtain ⟨hp, hstats, hcol⟩ := fetch_ok_shape client now _ h2
  refine ⟨_, h2, rfl, ?_, ?_, ⟨_, hcol⟩, ⟨_, hstats, rfl⟩⟩
  · show candidateDate now j % 86400 = 0
    unfold candidateDate truncDay
    omega
  · show candidateDate now j < now
    unfold candidateDate truncDay
    have : ((j : Int) + 1) * 86400 ≥ 86400 := by
      have : (0 : Int) ≤ (j : Int) := Int.natCast_nonneg j
      nlinarith
    omega

/-- Witness for C9: the third candidate succeeds at `now = 1700000000`
(2023-11-14 22:13:20 UTC); the returned instant is midnight of
2023-11-11. -/
theorem fetch_timestamp_probed_day_witness :
    ∃ r, (fetchQuotaStats thirdDayClient 1700000000).2 = GoResult.ok r ∧
      r.t = truncDay (1700000000 - ((2 : Nat) + 1 : Int) * 86400) ∧
      r.t % 86400 = 0 ∧
      r.t < 1700000000 ∧
      (∃ more, Collect thirdDayClient 1700000000 = some
        (⟨timestampDesc, (r.t : ℚ)⟩ :: more)) ∧
      (∃ st, statsPageHanderFunc thirdDayClient 1700000000 = PageOutcome.rendered st ∧
        st.date = formatDate r.t) :=
  fetch_timestamp_probed_day thirdDayClient 1700000000 2 (fun _ => FetchErr.api 1)
    exampleReport ⟨[⟨"accounts:total_quota_in_mb", 1048576⟩,
      ⟨"accounts:used_quota_in_mb", 524288⟩]⟩ [] (by decide) (by decide) (by decide) rfl

/-- C10: when the accepted report's first entry lacks the total-quota
(resp. used-quota) parameter, the fetch still succeeds (nil error) with 0
for that value; with neither present it returns 0 and 0 and the 0/0 NaN
sentinel percentage. -/
theorem fetch_missing_params_zero (client : String → Except FetchErr UsageReports)
    (now : Int) (j : Nat) (errs : Nat → FetchErr) (resp : UsageReports)
    (rep : UsageReport) (rest : List UsageReport) (hj : j < 5)
    (hfail : ∀ i, i < j → client (formatDate (candidateDate now i)) = Except.error (errs i))
    (hsucc : client (formatDate (candidateDate now j)) = Except.ok resp)
    (hrep : resp.usageReports = rep :: rest) :
    ((∀ p ∈ rep.parameters, p.name ≠ "accounts:total_quota_in_mb") →
      ∃ r, (fetchQuotaStats client now).2 = GoResult.ok r ∧ r.totalQuota = 0) ∧
    ((∀ p ∈ rep.parameters, p.name ≠ "accounts:used_quota_in_mb") →
      ∃ r, (fetchQuotaStats client now).2 = GoResult.ok r ∧ r.usedQuota = 0) ∧
    ((∀ p ∈ rep.parameters,
        p.name ≠ "accounts:total_quota_in_mb" ∧ p.name ≠ "accounts:used_quota_in_mb") →
      ∃ r, (fetchQuotaStats client now).2 = GoResult.ok r ∧
        r.totalQuota = 0 ∧ r.usedQuota = 0 ∧ r.percentageUsed = FVal.nan) := by
  have h2 := fetch_first_success_ok client now j errs resp rep rest hj hfail hsucc hrep
  refine ⟨fun h => ⟨_, h2, extractQuotas_fst_zero rep.parameters h⟩,
    fun h => ⟨_, h2, extractQuotas_snd_zero rep.parameters h⟩,
    fun h => ⟨_, h2, extractQuotas_fst_zero rep.parameters (fun p hp => (h p hp).1),
      extractQuotas_snd_zero rep.parameters (fun p hp => (h p hp).2), ?_⟩⟩
  show FVal.mul (FVal.div (FVal.fin (extractQuotas rep.parameters).2)
    (FVal.fin (extractQuotas rep.parameters).1)) (FVal.fin 100) = FVal.nan
  rw [extractQuotas_fst_zero rep.parameters (fun p hp => (h p hp).1),
    extractQuotas_snd_zero rep.parameters (fun p hp => (h p hp).2)]
  simp [FVal.div, FVal.mul]

/-- Witness for C10: a first-probe report carrying only an unrelated
parameter yields a successful fetch with both quotas 0 and a NaN
percentage. -/
theorem fetch_missing_params_zero_witness :
    ((∀ p ∈ (⟨[⟨"accounts:num_users", 7⟩]⟩ : UsageReport).parameters,
        p.name ≠ "accounts:total_quota_in_mb") →
      ∃ r, (fetchQuotaStats noParamClient 1700000000).2 = GoResult.ok r ∧
        r.totalQuota = 0) ∧
    ((∀ p ∈ (⟨[⟨"accounts:num_users", 7⟩]⟩ : UsageReport).parameters,
        p.name ≠ "accounts:used_quota_in_mb") →
      ∃ r, (fetchQuotaStats noParamClient 1700000000).2 = GoResult.ok r ∧
        r.usedQuota = 0) ∧
    ((∀ p ∈ (⟨[⟨"accounts:num_users", 7⟩]⟩ : UsageReport).parameters,
        p.name ≠ "accounts:total_quota_in_mb" ∧
        p.name ≠ "accounts:used_quota_in_mb") →
      ∃ r, (fetchQuotaStats noParamClient 1700000000).2 = GoResult.ok r ∧
        r.totalQuota = 0 ∧ r.usedQuota = 0 ∧ r.percentageUsed = FVal.nan) :=
  fetch_missing_params_zero noParamClient 1700000000 0 (fun _ => FetchErr.api 1)
    ⟨[⟨[⟨"accounts:num_users", 7⟩]⟩]⟩ ⟨[⟨"accounts:num_users", 7⟩]⟩ []
    (by decide) (fun i hi => absurd hi (Nat.not_lt_zero i)) (by decide) rfl

/-- A client whose first probe already succeeds with the worked-example
report. -/
def firstDayClient : String → Except FetchErr UsageReports := fun _ =>
  Except.ok exampleReport

/-- A client whose first probe succeeds with a report whose total quota is
absent (hence 0) while the used quota is positive. -/
def zeroTotalClient : String → Except FetchErr UsageReports := fun _ =>
  Except.ok ⟨[⟨[⟨"accounts:used_quota_in_mb", 100⟩]⟩]⟩

/-- C5: on a successful fetch, `Collect` emits exactly the three gauge
samples — the fetch timestamp in epoch seconds, and each quota in bytes as
the MB value times exactly 1048576; for the worked example (1048576 MB
total, 524288 MB used) the byte values are 1099511627776 and
549755813888. -/
theorem collect_success_samples (client : String → Except FetchErr UsageReports)
    (now : Int) (r : QuotaSnapshot)
    (h : (fetchQuotaStats client now).2 = GoResult.ok r) :
    Collect client now = some
      [⟨timestampDesc, (r.t : ℚ)⟩, ⟨totalDesc, r.totalQuota * 1048576⟩,
       ⟨usedDesc, r.usedQuota * 1048576⟩] ∧
    (r.totalQuota = 1048576 → r.usedQuota = 524288 →
      Collect client now = some
        [⟨timestampDesc, (r.t : ℚ)⟩, ⟨totalDesc, 1099511627776⟩,
         ⟨usedDesc, 549755813888⟩]) := by
  have hc := (fetch_ok_shape client now r h).2.2
  refine ⟨hc, fun h1 h2 => ?_⟩
  rw [hc, h1, h2]
  norm_num

unseal Rat.mul Rat.inv Rat.sub Rat.add in
/-- Witness for C5 on the worked example, accepted at the first probe. -/
theorem collect_success_samples_witness :
    (fetchQuotaStats firstDayClient 1700000000).2 = GoResult.ok
      ⟨candidateDate 1700000000 0, 1048576, 524288, FVal.fin 50⟩ ∧
    ((1048576 : ℚ) = 1048576 ∧ (524288 : ℚ) = 524288) ∧
    Collect firstDayClient 1700000000 = some
      [⟨timestampDesc, ((candidateDate 1700000000 0 : Int) : ℚ)⟩,
       ⟨totalDesc, 1099511627776⟩, ⟨usedDesc, 549755813888⟩] :=
  ⟨by decide, ⟨rfl, rfl⟩,
    (collect_success_samples firstDayClient 1700000000
      ⟨candidateDate 1700000000 0, 1048576, 524288, FVal.fin 50⟩ (by decide)).2 rfl rfl⟩

/-- C8: a successful fetch with zero total quota does not crash: the
percentage is the non-finite sentinel (NaN or a signed infinity), the
stats page handler still renders a record carrying that sentinel, and the
collector still completes the scrape with its three samples. -/
theorem fetch_zero_total_sentinel (client : String → Except FetchErr UsageReports)
    (now : Int) (r : QuotaSnapshot)
    (h : (fetchQuotaStats client now).2 = GoResult.ok r)
    (hz : r.totalQuota = 0) :
    (r.percentageUsed = FVal.nan ∨ r.percentageUsed = FVal.inf ∨
      r.percentageUsed = FVal.negInf) ∧
    (∃ st, statsPageHanderFunc client now = PageOutcome.rendered st ∧
      st.percentageUsed = r.percentageUsed) ∧
    (∃ samples, Collect client now = some samples ∧ samples.length = 3) := by
  obtain ⟨hp, hstats, hcol⟩ := fetch_ok_shape client now r h
  refine ⟨?_, ⟨_, hstats, rfl⟩, ⟨_, hcol, rfl⟩⟩
  rw [hp, hz]
  rcases lt_trichotomy r.usedQuota 0 with hu | hu | hu
  · right; right
    have h1 : ¬((0 : ℚ) < r.usedQuota) := by linarith
    simp [FVal.div, FVal.mul, hu.ne, h1]
  · left
    simp [FVal.div, FVal.mul, hu]
  · right; left
    simp [FVal.div, FVal.mul, hu.ne', hu]

/-- Witness for C8: a report with only a used-quota parameter gives total
0 and percentage +∞, and both consumers complete. -/
theorem fetch_zero_total_sentinel_witness :
    ((fetchQuotaStats zeroTotalClient 1700000000).2 = GoResult.ok
      ⟨candidateDate 1700000000 0, 0, 100, FVal.inf⟩ ∧
      (⟨candidateDate 1700000000 0, 0, 100, FVal.inf⟩ : QuotaSnapshot).totalQuota = 0) ∧
    ((⟨candidateDate 1700000000 0, 0, 100, FVal.inf⟩ : QuotaSnapshot).percentageUsed =
        FVal.nan ∨
      (⟨candidateDate 1700000000 0, 0, 100, FVal.inf⟩ : QuotaSnapshot).percentageUsed =
        FVal.inf ∨
      (⟨candidateDate 1700000000 0, 0, 100, FVal.inf⟩ : QuotaSnapshot).percentageUsed =
        FVal.negInf) ∧
    (∃ st, statsPageHanderFunc zeroTotalClient 1700000000 = PageOutcome.rendered st ∧
      st.percentageUsed =
        (⟨candidateDate 1700000000 0, 0, 100, FVal.inf⟩ : QuotaSnapshot).percentageUsed) ∧
    (∃ samples, Collect zeroTotalClient 1700000000 = some samples ∧
      samples.length = 3) :=
  ⟨⟨by decide, rfl⟩,
    (fetch_zero_total_sentinel zeroTotalClient 1700000000
      ⟨candidateDate 1700000000 0, 0, 100, FVal.inf⟩ (by decide) rfl).1,
    (fetch_zero_total_sentinel zeroTotalClient 1700000000
      ⟨candidateDate 1700000000 0, 0, 100, FVal.inf⟩ (by decide) rfl).2.1,
    (fetch_zero_total_sentinel zeroTotalClient 1700000000
      ⟨candidateDate 1700000000 0, 0, 100, FVal.inf⟩ (by decide) rfl).2.2⟩

/-! ## Shape lemmas for the rendered strings -/

lemma ofNat_digit_isDigit (m : Nat) (h : m < 10) :
    (Char.ofNat (48 + m)).isDigit = true := by
  interval_cases m <;> decide

lemma digitChar_isDigit (n : Nat) : (digitChar n).isDigit = true :=
  ofNat_digit_isDigit (n % 10) (Nat.mod_lt _ (by norm_num))

/-- A ten-character `YYYY-MM-DD` string: four digits, a dash, two digits,
a dash, two digits. -/
def isoDateShape (s : String) : Prop :=
  ∃ y1 y2 y3 y4 mo1 mo2 d1 d2 : Char,
    s = String.mk [y1, y2, y3, y4, '-', mo1, mo2, '-', d1, d2] ∧
    y1.isDigit ∧ y2.isDigit ∧ y3.isDigit ∧ y4.isDigit ∧
    mo1.isDigit ∧ mo2.isDigit ∧ d1.isDigit ∧ d2.isDigit

lemma formatDate_isoShape (t : Int) : isoDateShape (formatDate t) :=
  ⟨_, _, _, _, _, _, _, _, rfl,
    digitChar_isDigit _, digitChar_isDigit _, digitChar_isDigit _,
    digitChar_isDigit _, digitChar_isDigit _, digitChar_isDigit _,
    digitChar_isDigit _, digitChar_isDigit _⟩

lemma formatFixed3_shape (q : ℚ) :
    ∃ pre post : String, formatFixed3 q = pre ++ "." ++ post ∧
      post.length = 3 ∧
      ∃ f1 f2 f3 : Char, post = String.mk [f1, f2, f3] ∧
        f1.isDigit ∧ f2.isDigit ∧ f3.isDigit :=
  ⟨(if roundTiesEven (q * 1000) < 0 then "-" else "") ++
      toString ((roundTiesEven (q * 1000)).natAbs / 1000),
    pad3 ((roundTiesEven (q * 1000)).natAbs % 1000), rfl, rfl,
    _, _, _, rfl, digitChar_isDigit _, digitChar_isDigit _, digitChar_isDigit _⟩

unseal Rat.mul Rat.inv Rat.sub Rat.add in
/-- C6: on a successful fetch, the stats page handler renders a record
whose date is the report date in ISO `YYYY-MM-DD` form and whose quota
strings are the values in terabytes (MB ÷ 1048576) with exactly three
fractional digits; for the worked example the strings are "1.000" and
"0.500" and the percentage is 50. -/
theorem stats_page_rendering (client : String → Except FetchErr UsageReports)
    (now : Int) (r : QuotaSnapshot)
    (h : (fetchQuotaStats client now).2 = GoResult.ok r) :
    statsPageHanderFunc client now = PageOutcome.rendered
      ⟨formatDate r.t, formatFixed3 (r.totalQuota / 1048576),
       formatFixed3 (r.usedQuota / 1048576), r.percentageUsed⟩ ∧
    isoDateShape (formatDate r.t) ∧
    (∀ q : ℚ, ∃ pre post : String, formatFixed3 q = pre ++ "." ++ post ∧
      post.length = 3 ∧
      ∃ f1 f2 f3 : Char, post = String.mk [f1, f2, f3] ∧
        f1.isDigit ∧ f2.isDigit ∧ f3.isDigit) ∧
    (r.totalQuota = 1048576 → formatFixed3 (r.totalQuota / 1048576) = "1.000") ∧
    (r.usedQuota = 524288 → formatFixed3 (r.usedQuota / 1048576) = "0.500") ∧
    (r.totalQuota = 1048576 → r.usedQuota = 524288 →
      r.percentageUsed = FVal.fin 50) := by
  obtain ⟨hp, hstats, -⟩ := fetch_ok_shape client now r h
  refine ⟨hstats, formatDate_isoShape r.t, formatFixed3_shape, ?_, ?_, ?_⟩
  · intro h1; rw [h1]; decide
  · intro h2; rw [h2]; decide
  · intro h1 h2; rw [hp, h1, h2]; decide

unseal Rat.mul Rat.inv Rat.sub Rat.add in
/-- Witness for C6 on the worked example, accepted at the first probe. -/
theorem stats_page_rendering_witness :
    (fetchQuotaStats firstDayClient 1700000000).2 = GoResult.ok
      ⟨candidateDate 1700000000 0, 1048576, 524288, FVal.fin 50⟩ ∧
    (statsPageHanderFunc firstDayClient 1700000000 = PageOutcome.rendered
      ⟨formatDate (candidateDate 1700000000 0), formatFixed3 ((1048576 : ℚ) / 1048576),
       formatFixed3 ((524288 : ℚ) / 1048576), FVal.fin 50⟩ ∧
    isoDateShape (formatDate (candidateDate 1700000000 0)) ∧
    (∀ q : ℚ, ∃ pre post : String, formatFixed3 q = pre ++ "." ++ post ∧
      post.length = 3 ∧
      ∃ f1 f2 f3 : Char, post = String.mk [f1, f2, f3] ∧
        f1.isDigit ∧ f2.isDigit ∧ f3.isDigit) ∧
    ((1048576 : ℚ) = 1048576 → formatFixed3 ((1048576 : ℚ) / 1048576) = "1.000") ∧
    ((524288 : ℚ) = 524288 → formatFixed3 ((524288 : ℚ) / 1048576) = "0.500") ∧
    ((1048576 : ℚ) = 1048576 → (524288 : ℚ) = 524288 →
      FVal.fin 50 = FVal.fin 50)) :=
  ⟨by decide,
    stats_page_rendering firstDayClient 1700000000
      ⟨candidateDate 1700000000 0, 1048576, 524288, FVal.fin 50⟩ (by decide)⟩

end GoogleAdminQuota
